import Mathlib

/-!
Shallow embedding of the paginated, filterable query subsystem of the
keepsake backend (src/backend/database.py: get_images, get_logs,
get_errors, and the add_error write issued on the get_images failure
path), together with proofs about the claims on that subsystem.

Modelling conventions:
  * SQLite rows become Lean structures; DATETIME columns are the TEXT
    datetime strings SQLite stores, compared lexicographically (SQLite
    BINARY collation on ASCII datetime text).
  * The filters dict becomes a structure of Option fields; a missing key
    or a Python-falsy (empty-string) value is `none` after
    normalisation, mirroring the `if key in filters and filters[key]`
    guards.  min_size/max_size arrive from HTTP as decimal strings and
    are compared against the INTEGER-affinity file_size column, so they
    are modelled as the parsed integers.
  * The dynamically built WHERE clause becomes a list of clause values
    (one per appended SQL fragment, in source order), conjoined by
    List.all exactly as the fragments are joined with AND.  The count
    query of the source recovers the WHERE text and the bound
    parameters (params without the trailing LIMIT/OFFSET pair) from the
    already-built fetch query; this is modelled by the count path
    reusing the whereClauses component of the built query value.
  * ORDER BY: get_images interpolates the client-supplied sort_by /
    sort_order tokens into the SQL text unchecked (database.py line
    137).  The store's reaction is modelled by resolveImageSortCol /
    resolveOrd: a token naming a real column (SQLite resolves
    identifiers ASCII-case-insensitively) sorts by that column, any
    other token makes the statement fail to execute, which the source
    catches as sqlite3.Error.  get_logs / get_errors hard-code
    ORDER BY timestamp DESC.
  * LIMIT/OFFSET carry SQLite semantics: a negative OFFSET reads from
    the start (Int.toNat clamps), a negative LIMIT means no limit, and
    LIMIT 0 returns no rows.
  * Store failures (sqlite3.Error) are modelled by a failing flag on
    the database handle; every cursor.execute raises while it is set.
    Python integer floor division is Int.fdiv, and the ZeroDivisionError
    raised by `(total + per_page - 1) // per_page` at per_page = 0 is
    the PyErr.zeroDiv value, which escapes the `except sqlite3.Error`
    handler exactly as in the source.
  * Each operation returns the trace of store calls it performed:
    readFetch and readCount for the two SELECTs, insertError for the
    INSERT issued by add_error on the get_images failure path.
-/

namespace Keepsake

/-- Boolean test that the first character list is a leading block of the second. -/
def leadsWith : List Char → List Char → Bool
  | [], _ => true
  | _ :: _, [] => false
  | a :: as, b :: bs => a == b && leadsWith as bs

/-- Boolean test that the first character list occurs contiguously inside the second. -/
def occursIn (needle : List Char) : List Char → Bool
  | [] => leadsWith needle []
  | b :: bs => leadsWith needle (b :: bs) || occursIn needle bs

/-- ASCII lowering of one character (SQLite folds only ASCII). -/
def lowerChar (c : Char) : Char :=
  if c.toNat < 65 then c
  else if c.toNat ≤ 90 then Char.ofNat (c.toNat + 32)
  else c

/-- The character list of a string, ASCII-lowered. -/
def lowerChars (s : String) : List Char :=
  s.data.map lowerChar

/-- Lexicographic order on character lists by code point, the order
SQLite's BINARY collation gives the stored ASCII datetime text. -/
def charsLe : List Char → List Char → Bool
  | [], _ => true
  | _ :: _, [] => false
  | a :: as, b :: bs =>
      if a.toNat < b.toNat then true
      else if b.toNat < a.toNat then false
      else charsLe as bs

/-- String comparison used for the TEXT/DATETIME columns. -/
def strLe (a b : String) : Bool :=
  charsLe a.data b.data

/-- SQLite `column LIKE ?` with a %value% pattern: ASCII-case-insensitive
substring containment, as LIKE is case-insensitive for ASCII by default. -/
def likeContains (hay pat : String) : Bool :=
  occursIn (lowerChars pat) (lowerChars hay)

/-- A row of the images table (database.py lines 16-27). -/
structure ImageRow where
  id : Int
  original_filename : String
  saved_filename : String
  url : String
  file_extension : String
  file_size : Int
  upload_timestamp : String
  additional_metadata : String
  deriving DecidableEq

/-- A row of the logs table (database.py lines 30-39). -/
structure LogRow where
  id : Int
  timestamp : String
  level : String
  message : String
  source : String
  details : String
  deriving DecidableEq

/-- A row of the errors table (database.py lines 42-51). -/
structure ErrorRow where
  id : Int
  timestamp : String
  severity : String
  message : String
  resolved : Bool
  details : String
  deriving DecidableEq

/-- The filters mapping passed to get_images (app.py lines 191-194
forwards exactly these keys when present in the request). -/
structure ImageFilters where
  file_extension : Option String := none
  filename : Option String := none
  date_from : Option String := none
  date_to : Option String := none
  min_size : Option Int := none
  max_size : Option Int := none
  sort_by : Option String := none
  sort_order : Option String := none
  deriving DecidableEq

/-- The filters mapping passed to get_logs.  app.py forwards only the
first four keys; sort_by/sort_order keys may sit in the mapping but
get_logs never reads them, so the fields are carried but unused. -/
structure LogFilters where
  level : Option String := none
  search : Option String := none
  date_from : Option String := none
  date_to : Option String := none
  sort_by : Option String := none
  sort_order : Option String := none
  deriving DecidableEq

/-- Python truthiness normalisation for a string filter value: a key
that is absent, or present with the falsy empty string, applies no
clause (the `if key in filters and filters[key]` guard). -/
def strFilterVal : Option String → Option String
  | some v => if v = "" then none else some v
  | none => none

/-- One appended WHERE fragment of the images fetch query
(database.py lines 106-128), with its bound parameter. -/
inductive ImgClause
  | extEq (v : String)
  | nameLike (v : String)
  | dateFrom (v : String)
  | dateTo (v : String)
  | minSize (v : Int)
  | maxSize (v : Int)
  deriving DecidableEq

/-- The WHERE fragments of get_images, in source order. -/
def buildImgClauses (f : ImageFilters) : List ImgClause :=
  (match strFilterVal f.file_extension with
    | some v => [ImgClause.extEq v]
    | none => []) ++
  (match strFilterVal f.filename with
    | some v => [ImgClause.nameLike v]
    | none => []) ++
  (match strFilterVal f.date_from with
    | some v => [ImgClause.dateFrom v]
    | none => []) ++
  (match strFilterVal f.date_to with
    | some v => [ImgClause.dateTo v]
    | none => []) ++
  (match f.min_size with
    | some v => [ImgClause.minSize v]
    | none => []) ++
  (match f.max_size with
    | some v => [ImgClause.maxSize v]
    | none => [])

/-- Evaluation of one images WHERE fragment on a row.  The filename
fragment is `(original_filename LIKE ? OR saved_filename LIKE ?)`:
an OR of the two column matches inside the one clause. -/
def evalImgClause : ImgClause → ImageRow → Bool
  | ImgClause.extEq v, r => r.file_extension == v
  | ImgClause.nameLike v, r =>
      likeContains r.original_filename v || likeContains r.saved_filename v
  | ImgClause.dateFrom v, r => strLe v r.upload_timestamp
  | ImgClause.dateTo v, r => strLe r.upload_timestamp v
  | ImgClause.minSize v, r => decide (v ≤ r.file_size)
  | ImgClause.maxSize v, r => decide (r.file_size ≤ v)

/-- The fragments joined with AND (database.py line 131). -/
def evalImgWhere (cs : List ImgClause) (r : ImageRow) : Bool :=
  cs.all (fun c => evalImgClause c r)

/-- Independent brute-force statement of the images filter predicate:
one conjunct per filter, OR across the two filename columns. -/
def matchesImage (f : ImageFilters) (r : ImageRow) : Bool :=
  (match strFilterVal f.file_extension with
    | some v => r.file_extension == v
    | none => true) &&
  (match strFilterVal f.filename with
    | some v => likeContains r.original_filename v || likeContains r.saved_filename v
    | none => true) &&
  (match strFilterVal f.date_from with
    | some v => strLe v r.upload_timestamp
    | none => true) &&
  (match strFilterVal f.date_to with
    | some v => strLe r.upload_timestamp v
    | none => true) &&
  (match f.min_size with
    | some v => decide (v ≤ r.file_size)
    | none => true) &&
  (match f.max_size with
    | some v => decide (r.file_size ≤ v)
    | none => true)

/-- One appended WHERE fragment of the logs fetch query
(database.py lines 250-265). -/
inductive LogClause
  | levelEq (v : String)
  | searchLike (v : String)
  | dateFrom (v : String)
  | dateTo (v : String)
  deriving DecidableEq

/-- The WHERE fragments of get_logs, in source order. -/
def buildLogClauses (f : LogFilters) : List LogClause :=
  (match strFilterVal f.level with
    | some v => [LogClause.levelEq v]
    | none => []) ++
  (match strFilterVal f.search with
    | some v => [LogClause.searchLike v]
    | none => []) ++
  (match strFilterVal f.date_from with
    | some v => [LogClause.dateFrom v]
    | none => []) ++
  (match strFilterVal f.date_to with
    | some v => [LogClause.dateTo v]
    | none => [])

/-- Evaluation of one logs WHERE fragment on a row.  The search
fragment is `(message LIKE ? OR details LIKE ?)`. -/
def evalLogClause : LogClause → LogRow → Bool
  | LogClause.levelEq v, r => r.level == v
  | LogClause.searchLike v, r =>
      likeContains r.message v || likeContains r.details v
  | LogClause.dateFrom v, r => strLe v r.timestamp
  | LogClause.dateTo v, r => strLe r.timestamp v

/-- The logs fragments joined with AND (database.py line 268). -/
def evalLogWhere (cs : List LogClause) (r : LogRow) : Bool :=
  cs.all (fun c => evalLogClause c r)

/-- Independent brute-force statement of the logs filter predicate. -/
def matchesLog (f : LogFilters) (r : LogRow) : Bool :=
  (match strFilterVal f.level with
    | some v => r.level == v
    | none => true) &&
  (match strFilterVal f.search with
    | some v => likeContains r.message v || likeContains r.details v
    | none => true) &&
  (match strFilterVal f.date_from with
    | some v => strLe v r.timestamp
    | none => true) &&
  (match strFilterVal f.date_to with
    | some v => strLe r.timestamp v
    | none => true)

/-- The images table columns, as sort targets. -/
inductive ImgCol
  | cid
  | cOriginal
  | cSaved
  | cUrl
  | cExt
  | cSize
  | cTs
  | cMeta
  deriving DecidableEq

/-- The store resolving the interpolated ORDER BY identifier: SQLite
column lookup is ASCII-case-insensitive; any token that is not a column
of the images table makes the statement fail (sqlite3.OperationalError,
a sqlite3.Error). -/
def resolveImageSortCol (s : String) : Option ImgCol :=
  let t := lowerChars s
  if t = ("id").data then some ImgCol.cid
  else if t = ("original_filename").data then some ImgCol.cOriginal
  else if t = ("saved_filename").data then some ImgCol.cSaved
  else if t = ("url").data then some ImgCol.cUrl
  else if t = ("file_extension").data then some ImgCol.cExt
  else if t = ("file_size").data then some ImgCol.cSize
  else if t = ("upload_timestamp").data then some ImgCol.cTs
  else if t = ("additional_metadata").data then some ImgCol.cMeta
  else none

/-- The store parsing the interpolated sort-direction token: ASC and
DESC (SQL keywords, case-insensitive) are accepted, the empty token
leaves the SQLite default ASC, anything else is a syntax error. -/
def resolveOrd (s : String) : Option Bool :=
  let t := lowerChars s
  if t = ("desc").data then some true
  else if t = ("asc").data then some false
  else if t = ([] : List Char) then some false
  else none

/-- Column-wise comparison of two image rows. -/
def imgKeyLe (c : ImgCol) (a b : ImageRow) : Bool :=
  match c with
  | ImgCol.cid => decide (a.id ≤ b.id)
  | ImgCol.cOriginal => strLe a.original_filename b.original_filename
  | ImgCol.cSaved => strLe a.saved_filename b.saved_filename
  | ImgCol.cUrl => strLe a.url b.url
  | ImgCol.cExt => strLe a.file_extension b.file_extension
  | ImgCol.cSize => decide (a.file_size ≤ b.file_size)
  | ImgCol.cTs => strLe a.upload_timestamp b.upload_timestamp
  | ImgCol.cMeta => strLe a.additional_metadata b.additional_metadata

/-- The ORDER BY relation of the images query: the resolved column,
descending when desc is set. -/
def imgOrdRel (c : ImgCol) (desc : Bool) (a b : ImageRow) : Prop :=
  (if desc then imgKeyLe c b a else imgKeyLe c a b) = true

instance (c : ImgCol) (desc : Bool) : DecidableRel (imgOrdRel c desc) :=
  fun _ _ => instDecidableEqBool _ _

theorem charsLe_total : ∀ as bs : List Char, charsLe as bs = true ∨ charsLe bs as = true
  | [], _ => Or.inl rfl
  | _ :: _, [] => Or.inr rfl
  | a :: as, b :: bs => by
      unfold charsLe
      rcases Nat.lt_trichotomy a.toNat b.toNat with h | h | h
      · left
        rw [if_pos h]
      · rw [if_neg (by omega), if_neg (by omega), if_neg (by omega), if_neg (by omega)]
        exact charsLe_total as bs
      · right
        rw [if_pos h]

theorem charsLe_trans : ∀ {as bs cs : List Char},
    charsLe as bs = true → charsLe bs cs = true → charsLe as cs = true
  | [], _, _, _, _ => rfl
  | _ :: _, [], _, h1, _ => by simp [charsLe] at h1
  | _ :: _, _ :: _, [], _, h2 => by simp [charsLe] at h2
  | a :: as, b :: bs, c :: cs, h1, h2 => by
      unfold charsLe at h1 h2 ⊢
      by_cases hab : a.toNat < b.toNat
      · by_cases hbc : b.toNat < c.toNat
        · rw [if_pos (by omega)]
        · rw [if_neg hbc] at h2
          by_cases hcb : c.toNat < b.toNat
          · rw [if_pos hcb] at h2
            exact absurd h2 (by simp)
          · rw [if_pos (by omega)]
      · rw [if_neg hab] at h1
        by_cases hba : b.toNat < a.toNat
        · rw [if_pos hba] at h1
          exact absurd h1 (by simp)
        · rw [if_neg hba] at h1
          by_cases hbc : b.toNat < c.toNat
          · rw [if_pos (by omega)]
          · rw [if_neg hbc] at h2
            by_cases hcb : c.toNat < b.toNat
            · rw [if_pos hcb] at h2
              exact absurd h2 (by simp)
            · rw [if_neg hcb] at h2
              rw [if_neg (by omega), if_neg (by omega)]
              exact charsLe_trans h1 h2

/-- ORDER BY timestamp DESC for log rows (database.py line 270). -/
def logDescRel (a b : LogRow) : Prop :=
  strLe b.timestamp a.timestamp = true

instance : DecidableRel logDescRel :=
  fun _ _ => instDecidableEqBool _ _

instance : IsTotal LogRow logDescRel :=
  ⟨fun a b => (charsLe_total b.timestamp.data a.timestamp.data).elim Or.inl Or.inr⟩

instance : IsTrans LogRow logDescRel :=
  ⟨fun _ _ _ h1 h2 => charsLe_trans h2 h1⟩

/-- ORDER BY timestamp DESC for error rows (database.py line 335). -/
def errDescRel (a b : ErrorRow) : Prop :=
  strLe b.timestamp a.timestamp = true

instance : DecidableRel errDescRel :=
  fun _ _ => instDecidableEqBool _ _

instance : IsTotal ErrorRow errDescRel :=
  ⟨fun a b => (charsLe_total b.timestamp.data a.timestamp.data).elim Or.inl Or.inr⟩

instance : IsTrans ErrorRow errDescRel :=
  ⟨fun _ _ _ h1 h2 => charsLe_trans h2 h1⟩

/-- SQLite LIMIT ? OFFSET ? with Python-int bindings: a negative offset
reads from the start (Int.toNat clamps it to 0), a negative limit means
no limit, LIMIT 0 yields no rows. -/
def applyLimitOffset (per_page offset : Int) (l : List α) : List α :=
  let dropped := l.drop offset.toNat
  if per_page < 0 then dropped else dropped.take per_page.toNat

/-- The store calls an operation performs, in order: the page SELECT,
the COUNT SELECT, and the INSERT INTO errors issued by add_error. -/
inductive Effect
  | readFetch
  | readCount
  | insertError (msg : String)
  deriving DecidableEq

/-- An exception escaping the except sqlite3.Error handler. -/
inductive PyErr
  | zeroDiv
  deriving DecidableEq

/-- The database handle: its three tables, plus a failing flag under
which every cursor.execute raises sqlite3.Error. -/
structure DB where
  images : List ImageRow := []
  logs : List LogRow := []
  errors : List ErrorRow := []
  failing : Bool := false
  deriving DecidableEq

/-- The dict returned by get_images. -/
structure ImagesResult where
  images : List ImageRow
  total : Nat
  page : Int
  per_page : Int
  total_pages : Int
  deriving DecidableEq

/-- The dict returned by get_logs. -/
structure LogsResult where
  logs : List LogRow
  total : Nat
  page : Int
  per_page : Int
  total_pages : Int
  deriving DecidableEq

/-- The dict returned by get_errors. -/
structure ErrorsResult where
  errors : List ErrorRow
  total : Nat
  page : Int
  per_page : Int
  total_pages : Int
  deriving DecidableEq

/-- Python `(total + per_page - 1) // per_page` (floor division). -/
def totalPagesPy (total : Nat) (per_page : Int) : Int :=
  ((total : Int) + per_page - 1).fdiv per_page

/-- The fallback dict of the get_images except handler (line 167). -/
def imgFallback (page per_page : Int) : ImagesResult :=
  { images := [], total := 0, page := page, per_page := per_page, total_pages := 0 }

/-- The fallback dict of the get_logs except handler (line 296). -/
def logFallback (page per_page : Int) : LogsResult :=
  { logs := [], total := 0, page := page, per_page := per_page, total_pages := 0 }

/-- The fallback dict of the get_errors except handler (line 358). -/
def errFallback (page per_page : Int) : ErrorsResult :=
  { errors := [], total := 0, page := page, per_page := per_page, total_pages := 0 }

/-- The query value get_images assembles before executing: the WHERE
fragments and the raw (unvalidated) ORDER BY tokens taken from the
filters mapping with their defaults (database.py lines 100-137). -/
structure ImgQuery where
  whereClauses : List ImgClause
  sortBy : String
  sortOrder : String
  deriving DecidableEq

/-- Query construction of get_images: the client sort tokens are used
verbatim, with no allow-list check. -/
def buildImgQuery (f : ImageFilters) : ImgQuery :=
  { whereClauses := buildImgClauses f
    sortBy := f.sort_by.getD ("upload_timestamp")
    sortOrder := f.sort_order.getD ("DESC") }

/-- The count query of get_images: built from the WHERE text and the
bound parameters recovered from the fetch query (the text between WHERE
and ORDER BY, and params without the final LIMIT/OFFSET pair), hence
evaluated over exactly the whereClauses of the built query. -/
def countImages (cs : List ImgClause) (rows : List ImageRow) : Nat :=
  (rows.filter (fun r => evalImgWhere cs r)).length

/-- The count query of get_logs, recovered the same way. -/
def countLogs (cs : List LogClause) (rows : List LogRow) : Nat :=
  (rows.filter (fun r => evalLogWhere cs r)).length

/-- The error message recorded by get_images on a failed read. -/
def imgErrMsg : String := "Database error when getting images"

/-- The body of get_images once the fetch statement has been accepted
by the store: filter, sort, paginate, count, then build the dict, whose
total_pages division raises ZeroDivisionError at per_page = 0 (an
exception the except sqlite3.Error handler does not catch). -/
def runImagesQuery (db : DB) (page per_page : Int) (f : ImageFilters)
    (c : ImgCol) (desc : Bool) : Except PyErr ImagesResult × List Effect :=
  let cs := (buildImgQuery f).whereClauses
  let filtered := db.images.filter (fun r => evalImgWhere cs r)
  let sorted := List.insertionSort (imgOrdRel c desc) filtered
  let rows := applyLimitOffset per_page ((page - 1) * per_page) sorted
  let total := countImages cs db.images
  if per_page = 0 then
    (Except.error PyErr.zeroDiv, [Effect.readFetch, Effect.readCount])
  else
    (Except.ok { images := rows, total := total, page := page,
                 per_page := per_page, total_pages := totalPagesPy total per_page },
     [Effect.readFetch, Effect.readCount])

/-- get_images (database.py lines 93-170).  When the store cannot
execute the fetch (connection failure, or an ORDER BY token that is not
a column/direction), the sqlite3.Error is caught, add_error inserts an
error record, and the fallback dict is returned. -/
def getImages (db : DB) (page per_page : Int) (f : ImageFilters) :
    Except PyErr ImagesResult × List Effect :=
  match resolveImageSortCol (buildImgQuery f).sortBy,
        resolveOrd (buildImgQuery f).sortOrder, db.failing with
  | some c, some desc, false => runImagesQuery db page per_page f c desc
  | _, _, _ =>
      (Except.ok (imgFallback page per_page),
       [Effect.readFetch, Effect.insertError imgErrMsg])

/-- get_logs (database.py lines 237-299).  The sort is the hard-coded
ORDER BY timestamp DESC; on a store failure the sqlite3.Error is caught
and the fallback dict returned, with no add_error call (the source
avoids it to prevent recursion). -/
def getLogs (db : DB) (page per_page : Int) (f : LogFilters) :
    Except PyErr LogsResult × List Effect :=
  if db.failing then
    (Except.ok (logFallback page per_page), [Effect.readFetch])
  else
    let cs := buildLogClauses f
    let filtered := db.logs.filter (fun r => evalLogWhere cs r)
    let sorted := List.insertionSort logDescRel filtered
    let rows := applyLimitOffset per_page ((page - 1) * per_page) sorted
    let total := countLogs cs db.logs
    if per_page = 0 then
      (Except.error PyErr.zeroDiv, [Effect.readFetch, Effect.readCount])
    else
      (Except.ok { logs := rows, total := total, page := page,
                   per_page := per_page, total_pages := totalPagesPy total per_page },
       [Effect.readFetch, Effect.readCount])

/-- get_errors (database.py lines 322-361).  The resolved filter is the
include_resolved flag; the count query is rebuilt with the same
condition; the sort is the hard-coded ORDER BY timestamp DESC; on a
store failure the fallback dict is returned with no add_error call. -/
def getErrors (db : DB) (page per_page : Int) (include_resolved : Bool) :
    Except PyErr ErrorsResult × List Effect :=
  if db.failing then
    (Except.ok (errFallback page per_page), [Effect.readFetch])
  else
    let keep : ErrorRow → Bool := fun r =>
      if include_resolved then true else r.resolved == false
    let filtered := db.errors.filter keep
    let sorted := List.insertionSort errDescRel filtered
    let rows := applyLimitOffset per_page ((page - 1) * per_page) sorted
    let total := (db.errors.filter keep).length
    if per_page = 0 then
      (Except.error PyErr.zeroDiv, [Effect.readFetch, Effect.readCount])
    else
      (Except.ok { errors := rows, total := total, page := page,
                   per_page := per_page, total_pages := totalPagesPy total per_page },
       [Effect.readFetch, Effect.readCount])

/-- A read over the images table succeeds exactly when the connection
is healthy and the interpolated ORDER BY tokens are accepted. -/
def imgReadOk (db : DB) (f : ImageFilters) : Bool :=
  !db.failing && (resolveImageSortCol (buildImgQuery f).sortBy).isSome
    && (resolveOrd (buildImgQuery f).sortOrder).isSome

/-- Classification of effects into store reads and writes. -/
def isReadEffect : Effect → Bool
  | Effect.readFetch => true
  | Effect.readCount => true
  | Effect.insertError _ => false

theorem evalImgWhere_build (f : ImageFilters) (r : ImageRow) :
    evalImgWhere (buildImgClauses f) r = matchesImage f r := by
  unfold buildImgClauses matchesImage evalImgWhere
  rcases strFilterVal f.file_extension with _ | v1 <;>
  rcases strFilterVal f.filename with _ | v2 <;>
  rcases strFilterVal f.date_from with _ | v3 <;>
  rcases strFilterVal f.date_to with _ | v4 <;>
  rcases f.min_size with _ | v5 <;>
  rcases f.max_size with _ | v6 <;>
    simp [List.all_append, evalImgClause, Bool.and_assoc]

theorem evalLogWhere_build (g : LogFilters) (r : LogRow) :
    evalLogWhere (buildLogClauses g) r = matchesLog g r := by
  unfold buildLogClauses matchesLog evalLogWhere
  rcases strFilterVal g.level with _ | v1 <;>
  rcases strFilterVal g.search with _ | v2 <;>
  rcases strFilterVal g.date_from with _ | v3 <;>
  rcases strFilterVal g.date_to with _ | v4 <;>
    simp [List.all_append, evalLogClause, Bool.and_assoc]

theorem totalPagesPy_eq_ediv (t : Nat) (p : Int) (hp : 1 ≤ p) :
    totalPagesPy t p = ((t : Int) + p - 1) / p := by
  unfold totalPagesPy
  exact Int.fdiv_eq_ediv _ (by linarith)

theorem totalPagesPy_mul_ge (t : Nat) (p : Int) (hp : 1 ≤ p) :
    (t : Int) ≤ totalPagesPy t p * p := by
  have hp0 : (0 : Int) < p := by linarith
  have hmod := Int.ediv_add_emod ((t : Int) + p - 1) p
  have hml : ((t : Int) + p - 1) % p < p := Int.emod_lt_of_pos _ hp0
  have hq : totalPagesPy t p * p = p * (((t : Int) + p - 1) / p) := by
    rw [totalPagesPy_eq_ediv t p hp]; ring
  linarith

theorem totalPagesPy_pred_mul_lt (t : Nat) (p : Int) (hp : 1 ≤ p) :
    (totalPagesPy t p - 1) * p < (t : Int) := by
  have hp0 : (0 : Int) < p := by linarith
  have hmod := Int.ediv_add_emod ((t : Int) + p - 1) p
  have hmn : 0 ≤ ((t : Int) + p - 1) % p := Int.emod_nonneg _ (by linarith)
  have hq : (totalPagesPy t p - 1) * p = p * (((t : Int) + p - 1) / p) - p := by
    rw [totalPagesPy_eq_ediv t p hp]; ring
  linarith

theorem totalPagesPy_eq_ceil (t : Nat) (p : Int) (hp : 1 ≤ p) :
    totalPagesPy t p = ⌈(t : ℚ) / (p : ℚ)⌉ := by
  have hp0 : (0 : ℚ) < (p : ℚ) := by exact_mod_cast (by linarith : (0 : Int) < p)
  symm
  rw [Int.ceil_eq_iff]
  constructor
  · rw [lt_div_iff₀ hp0]
    exact_mod_cast totalPagesPy_pred_mul_lt t p hp
  · rw [div_le_iff₀ hp0]
    exact_mod_cast totalPagesPy_mul_ge t p hp

theorem totalPagesPy_eq_zero_iff (t : Nat) (p : Int) (hp : 1 ≤ p) :
    totalPagesPy t p = 0 ↔ t = 0 := by
  constructor
  · intro h
    have hge := totalPagesPy_mul_ge t p hp
    rw [h, zero_mul] at hge
    exact_mod_cast le_antisymm hge (by positivity)
  · intro h
    subst h
    rw [totalPagesPy_eq_ediv 0 p hp]
    apply Int.ediv_eq_zero_of_lt
    · omega
    · omega

theorem getImages_run_of_ok (db : DB) (f : ImageFilters)
    (hok : imgReadOk db f = true) :
    ∃ c desc, resolveImageSortCol (buildImgQuery f).sortBy = some c ∧
      resolveOrd (buildImgQuery f).sortOrder = some desc ∧ db.failing = false ∧
      ∀ page pp : Int, getImages db page pp f = runImagesQuery db page pp f c desc := by
  unfold imgReadOk at hok
  simp only [Bool.and_eq_true, Bool.not_eq_true', Option.isSome_iff_exists] at hok
  obtain ⟨⟨hfail, c, hc⟩, desc, ho⟩ := hok
  refine ⟨c, desc, hc, ho, hfail, fun page pp => ?_⟩
  unfold getImages
  rw [hc, ho, hfail]

/-- The dict built by get_images on the success path, spelled out. -/
def imagesOkResult (db : DB) (page pp : Int) (f : ImageFilters)
    (c : ImgCol) (desc : Bool) : ImagesResult :=
  { images := applyLimitOffset pp ((page - 1) * pp)
      (List.insertionSort (imgOrdRel c desc)
        (db.images.filter (fun x => evalImgWhere (buildImgQuery f).whereClauses x)))
    total := countImages (buildImgQuery f).whereClauses db.images
    page := page
    per_page := pp
    total_pages := totalPagesPy (countImages (buildImgQuery f).whereClauses db.images) pp }

theorem runImagesQuery_ok_elim {db : DB} {page pp : Int} {f : ImageFilters}
    {c : ImgCol} {desc : Bool} {r : ImagesResult} {e : List Effect}
    (h : runImagesQuery db page pp f c desc = (Except.ok r, e)) :
    pp ≠ 0 ∧ r = imagesOkResult db page pp f c desc ∧
      e = [Effect.readFetch, Effect.readCount] := by
  by_cases hpp : pp = 0
  · subst hpp
    simp [runImagesQuery] at h
  · simp only [runImagesQuery, if_neg hpp, Prod.mk.injEq, Except.ok.injEq] at h
    exact ⟨hpp, h.1.symm, h.2.symm⟩

/-- The dict built by get_logs on the success path, spelled out. -/
def logsOkResult (db : DB) (page pp : Int) (g : LogFilters) : LogsResult :=
  { logs := applyLimitOffset pp ((page - 1) * pp)
      (List.insertionSort logDescRel
        (db.logs.filter (fun x => evalLogWhere (buildLogClauses g) x)))
    total := countLogs (buildLogClauses g) db.logs
    page := page
    per_page := pp
    total_pages := totalPagesPy (countLogs (buildLogClauses g) db.logs) pp }

theorem getLogs_ok_elim {db : DB} {page pp : Int} {g : LogFilters}
    {r : LogsResult} {e : List Effect} (hdb : db.failing = false)
    (h : getLogs db page pp g = (Except.ok r, e)) :
    pp ≠ 0 ∧ r = logsOkResult db page pp g ∧
      e = [Effect.readFetch, Effect.readCount] := by
  by_cases hpp : pp = 0
  · subst hpp
    simp [getLogs, hdb] at h
  · simp only [getLogs, hdb, Bool.false_eq_true, if_false, if_neg hpp,
      Prod.mk.injEq, Except.ok.injEq] at h
    exact ⟨hpp, h.1.symm, h.2.symm⟩

/-- The kept-rows predicate of get_errors. -/
def errKeep (include_resolved : Bool) : ErrorRow → Bool :=
  fun r => if include_resolved then true else r.resolved == false

/-- The dict built by get_errors on the success path, spelled out. -/
def errorsOkResult (db : DB) (page pp : Int) (inc : Bool) : ErrorsResult :=
  { errors := applyLimitOffset pp ((page - 1) * pp)
      (List.insertionSort errDescRel (db.errors.filter (errKeep inc)))
    total := (db.errors.filter (errKeep inc)).length
    page := page
    per_page := pp
    total_pages := totalPagesPy (db.errors.filter (errKeep inc)).length pp }

theorem getErrors_ok_elim {db : DB} {page pp : Int} {inc : Bool}
    {r : ErrorsResult} {e : List Effect} (hdb : db.failing = false)
    (h : getErrors db page pp inc = (Except.ok r, e)) :
    pp ≠ 0 ∧ r = errorsOkResult db page pp inc ∧
      e = [Effect.readFetch, Effect.readCount] := by
  by_cases hpp : pp = 0
  · subst hpp
    simp [getErrors, hdb] at h
  · simp only [getErrors, hdb, Bool.false_eq_true, if_false, if_neg hpp,
      Prod.mk.injEq, Except.ok.injEq] at h
    exact ⟨hpp, h.1.symm, h.2.symm⟩

theorem mem_applyLimitOffset {l : List α} {pp off : Int} {a : α}
    (h : a ∈ applyLimitOffset pp off l) : a ∈ l := by
  unfold applyLimitOffset at h
  by_cases hneg : pp < 0
  · rw [if_pos hneg] at h
    exact List.drop_subset _ _ h
  · rw [if_neg hneg] at h
    exact List.drop_subset _ _ (List.take_subset _ _ h)

theorem applyLimitOffset_eq_nil {l : List α} {pp off : Int}
    (h : (l.length : Int) ≤ off) : applyLimitOffset pp off l = [] := by
  unfold applyLimitOffset
  have h0 : 0 ≤ off := le_trans (by positivity) h
  have hlen : l.length ≤ off.toNat := (Int.le_toNat h0).mpr h
  rw [List.drop_eq_nil_of_le hlen]
  by_cases hneg : pp < 0 <;> simp [hneg]

theorem pairwise_applyLimitOffset {α : Type} {R : α → α → Prop} {l : List α}
    {pp off : Int} (h : List.Pairwise R l) :
    List.Pairwise R (applyLimitOffset pp off l) := by
  unfold applyLimitOffset
  by_cases hneg : pp < 0
  · rw [if_pos hneg]
    exact h.sublist (List.drop_sublist _ _)
  · rw [if_neg hneg]
    exact h.sublist ((List.take_sublist _ _).trans (List.drop_sublist _ _))

instance {ε α : Type} [DecidableEq ε] [DecidableEq α] :
    DecidableEq (Except ε α) := fun a b =>
  match a, b with
  | Except.error x, Except.error y =>
      if h : x = y then isTrue (congrArg Except.error h)
      else isFalse (fun hc => h (Except.error.inj hc))
  | Except.ok x, Except.ok y =>
      if h : x = y then isTrue (congrArg Except.ok h)
      else isFalse (fun hc => h (Except.ok.inj hc))
  | Except.error _, Except.ok _ => isFalse (fun hc => Except.noConfusion hc)
  | Except.ok _, Except.error _ => isFalse (fun hc => Except.noConfusion hc)

/-- Fixture images: two png files whose names contain the letters cat,
and one jpg. -/
def imgA : ImageRow :=
  { id := 1, original_filename := "cat.png", saved_filename := "aa.png",
    url := "u1", file_extension := ".png", file_size := 100,
    upload_timestamp := "2024-01-01 10:00:00", additional_metadata := "" }

def imgB : ImageRow :=
  { id := 2, original_filename := "dog.jpg", saved_filename := "bb.jpg",
    url := "u2", file_extension := ".jpg", file_size := 50,
    upload_timestamp := "2024-01-02 10:00:00", additional_metadata := "" }

def imgC : ImageRow :=
  { id := 3, original_filename := "catalog.png", saved_filename := "cc.png",
    url := "u3", file_extension := ".png", file_size := 200,
    upload_timestamp := "2024-01-03 10:00:00", additional_metadata := "" }

/-- Fixture logs. -/
def logA : LogRow :=
  { id := 1, timestamp := "2024-01-01 10:00:00", level := "INFO",
    message := "started", source := "app", details := "" }

def logB : LogRow :=
  { id := 2, timestamp := "2024-01-02 10:00:00", level := "WARNING",
    message := "bad secret", source := "app", details := "denied" }

/-- Fixture errors: one open, one resolved. -/
def errA : ErrorRow :=
  { id := 1, timestamp := "2024-01-01 10:00:00", severity := "medium",
    message := "m1", resolved := false, details := "" }

def errB : ErrorRow :=
  { id := 2, timestamp := "2024-01-02 10:00:00", severity := "high",
    message := "m2", resolved := true, details := "" }

/-- A healthy fixture database. -/
def fixtureDB : DB :=
  { images := [imgA, imgB, imgC], logs := [logA, logB], errors := [errA, errB] }

/-- A database handle whose reads all raise sqlite3.Error. -/
def failDB : DB :=
  { images := [imgA], logs := [logA], errors := [errA], failing := true }

/-- A filters mapping whose sort_by token is not a column. -/
def bogusSortFilters : ImageFilters := { sort_by := some ("bogus") }

/-- Filename filter for the letters cat. -/
def fCat : ImageFilters := { filename := some ("cat") }

/-- Level filter for INFO logs. -/
def gInfo : LogFilters := { level := some ("INFO") }

/-- The effect trace of a successful listing call. -/
def twoReads : List Effect := [Effect.readFetch, Effect.readCount]

/-- Result of getImages fixtureDB 1 2 fCat. -/
def riCat : ImagesResult :=
  { images := [imgC, imgA], total := 2, page := 1, per_page := 2, total_pages := 1 }

/-- Result of getLogs fixtureDB 1 2 gInfo. -/
def rlInfo : LogsResult :=
  { logs := [logA], total := 1, page := 1, per_page := 2, total_pages := 1 }

/-- Result of getImages fixtureDB 2 2 fCat: page 2 is past the last page. -/
def riCatPage2 : ImagesResult :=
  { images := [], total := 2, page := 2, per_page := 2, total_pages := 1 }

theorem runImagesQuery_eq_ok (db : DB) (page pp : Int) (f : ImageFilters)
    (c : ImgCol) (desc : Bool) (hpp : pp ≠ 0) :
    runImagesQuery db page pp f c desc =
      (Except.ok (imagesOkResult db page pp f c desc),
       [Effect.readFetch, Effect.readCount]) := by
  simp only [runImagesQuery, if_neg hpp]
  rfl

/-- Claim C1: for every filter mapping, the total returned by a listing query
(get_images, get_logs) equals the number of records satisfying exactly the
filter predicate built from the mapping, the same predicate the returned page
was produced from: the count query and the fetch query never apply filters
inconsistently, and every returned record satisfies the predicate. -/
theorem c1_count_matches_filters (db : DB) (page pp : Int)
    (f : ImageFilters) (g : LogFilters) (ri : ImagesResult) (rl : LogsResult)
    (ei el : List Effect)
    (hok : imgReadOk db f = true) (hdb : db.failing = false)
    (hi : getImages db page pp f = (Except.ok ri, ei))
    (hl : getLogs db page pp g = (Except.ok rl, el)) :
    ri.total = (db.images.filter (matchesImage f)).length ∧
    (∀ r ∈ ri.images, matchesImage f r = true) ∧
    rl.total = (db.logs.filter (matchesLog g)).length ∧
    (∀ r ∈ rl.logs, matchesLog g r = true) := by
  obtain ⟨c, desc, hc, ho, hfail, heq⟩ := getImages_run_of_ok db f hok
  rw [heq page pp] at hi
  obtain ⟨hppI, hrI, -⟩ := runImagesQuery_ok_elim hi
  obtain ⟨hppL, hrL, -⟩ := getLogs_ok_elim hdb hl
  subst hrI
  subst hrL
  have himg : (fun x => evalImgWhere (buildImgQuery f).whereClauses x) = matchesImage f := by
    funext x
    exact evalImgWhere_build f x
  have hlog : (fun x => evalLogWhere (buildLogClauses g) x) = matchesLog g := by
    funext x
    exact evalLogWhere_build g x
  refine ⟨?_, ?_, ?_, ?_⟩
  · simp only [imagesOkResult, countImages, himg]
  · intro r hr
    have hmem : r ∈ db.images.filter
        (fun x => evalImgWhere (buildImgQuery f).whereClauses x) :=
      ((List.perm_insertionSort _ _).mem_iff).mp (mem_applyLimitOffset hr)
    rw [← evalImgWhere_build f r]
    exact (List.mem_filter.mp hmem).2
  · simp only [logsOkResult, countLogs, hlog]
  · intro r hr
    have hmem : r ∈ db.logs.filter
        (fun x => evalLogWhere (buildLogClauses g) x) :=
      ((List.perm_insertionSort _ _).mem_iff).mp (mem_applyLimitOffset hr)
    rw [← evalLogWhere_build g r]
    exact (List.mem_filter.mp hmem).2

/-- Concrete instance of claim C1 on the fixture store. -/
theorem c1_witness :
    riCat.total = (fixtureDB.images.filter (matchesImage fCat)).length ∧
    (∀ r ∈ riCat.images, matchesImage fCat r = true) ∧
    rlInfo.total = (fixtureDB.logs.filter (matchesLog gInfo)).length ∧
    (∀ r ∈ rlInfo.logs, matchesLog gInfo r = true) :=
  c1_count_matches_filters fixtureDB 1 2 fCat gInfo riCat rlInfo twoReads twoReads
    (by decide) (by decide) (by decide) (by decide)

/-- Claim C5: with a positive page size, total_pages is the ceiling of
total divided by the page size, and total_pages is zero exactly when total
is zero; in particular a page size of 20 with total 45 yields 3. -/
theorem c5_total_pages_ceil (db : DB) (page pp : Int)
    (f : ImageFilters) (g : LogFilters) (ri : ImagesResult) (rl : LogsResult)
    (ei el : List Effect)
    (hok : imgReadOk db f = true) (hdb : db.failing = false) (hpp : 1 ≤ pp)
    (hi : getImages db page pp f = (Except.ok ri, ei))
    (hl : getLogs db page pp g = (Except.ok rl, el)) :
    (ri.total_pages = ⌈(ri.total : ℚ) / (pp : ℚ)⌉ ∧ (ri.total_pages = 0 ↔ ri.total = 0)) ∧
    (rl.total_pages = ⌈(rl.total : ℚ) / (pp : ℚ)⌉ ∧ (rl.total_pages = 0 ↔ rl.total = 0)) ∧
    totalPagesPy 45 20 = 3 := by
  obtain ⟨c, desc, hc, ho, hfail, heq⟩ := getImages_run_of_ok db f hok
  rw [heq page pp] at hi
  obtain ⟨-, hrI, -⟩ := runImagesQuery_ok_elim hi
  obtain ⟨-, hrL, -⟩ := getLogs_ok_elim hdb hl
  subst hrI
  subst hrL
  exact ⟨⟨totalPagesPy_eq_ceil _ pp hpp, totalPagesPy_eq_zero_iff _ pp hpp⟩,
    ⟨totalPagesPy_eq_ceil _ pp hpp, totalPagesPy_eq_zero_iff _ pp hpp⟩, by decide⟩

/-- Concrete instance of claim C5 on the fixture store. -/
theorem c5_witness :
    (riCat.total_pages = ⌈(riCat.total : ℚ) / ((2 : Int) : ℚ)⌉ ∧
      (riCat.total_pages = 0 ↔ riCat.total = 0)) ∧
    (rlInfo.total_pages = ⌈(rlInfo.total : ℚ) / ((2 : Int) : ℚ)⌉ ∧
      (rlInfo.total_pages = 0 ↔ rlInfo.total = 0)) ∧
    totalPagesPy 45 20 = 3 :=
  c5_total_pages_ceil fixtureDB 1 2 fCat gInfo riCat rlInfo twoReads twoReads
    (by decide) (by decide) (by decide) (by decide) (by decide)

/-- Claim C6: for a fixed filter mapping and a page number beyond
total_pages, the listing returns (without error) an empty record sequence
while total and total_pages equal the values returned for page 1. -/
theorem c6_page_beyond_total_pages (db : DB) (page pp : Int) (f : ImageFilters)
    (r1 : ImagesResult) (e1 : List Effect)
    (hok : imgReadOk db f = true) (hpp : 1 ≤ pp)
    (h1 : getImages db 1 pp f = (Except.ok r1, e1))
    (hbeyond : r1.total_pages < page) :
    ∃ r : ImagesResult, ∃ e : List Effect,
      getImages db page pp f = (Except.ok r, e) ∧
      r.images = [] ∧ r.total = r1.total ∧ r.total_pages = r1.total_pages := by
  obtain ⟨c, desc, hc, ho, hfail, heq⟩ := getImages_run_of_ok db f hok
  rw [heq 1 pp] at h1
  obtain ⟨-, hr1, -⟩ := runImagesQuery_ok_elim h1
  subst hr1
  have hppne : pp ≠ 0 := by omega
  refine ⟨imagesOkResult db page pp f c desc, twoReads, ?_, ?_, rfl, rfl⟩
  · rw [heq page pp]
    exact runImagesQuery_eq_ok db page pp f c desc hppne
  · have hbey : totalPagesPy (countImages (buildImgQuery f).whereClauses db.images) pp
        < page := hbeyond
    have hge := totalPagesPy_mul_ge (countImages (buildImgQuery f).whereClauses db.images)
      pp hpp
    have hmul : totalPagesPy (countImages (buildImgQuery f).whereClauses db.images) pp * pp
        ≤ (page - 1) * pp :=
      mul_le_mul_of_nonneg_right (by omega) (by omega)
    show applyLimitOffset pp ((page - 1) * pp)
      (List.insertionSort (imgOrdRel c desc)
        (db.images.filter (fun x => evalImgWhere (buildImgQuery f).whereClauses x))) = []
    apply applyLimitOffset_eq_nil
    rw [List.length_insertionSort]
    calc ((db.images.filter
            (fun x => evalImgWhere (buildImgQuery f).whereClauses x)).length : Int)
        = (countImages (buildImgQuery f).whereClauses db.images : Int) := rfl
      _ ≤ (page - 1) * pp := le_trans hge hmul

/-- Concrete instance of claim C6 on the fixture store: page 2 of a
filtered listing whose total_pages is 1. -/
theorem c6_witness :
    ∃ r : ImagesResult, ∃ e : List Effect,
      getImages fixtureDB 2 2 fCat = (Except.ok r, e) ∧
      r.images = [] ∧ r.total = riCat.total ∧ r.total_pages = riCat.total_pages :=
  c6_page_beyond_total_pages fixtureDB 2 2 fCat riCat twoReads
    (by decide) (by decide) (by decide) (by decide)

/-- Claim C2, evaluated against the code (code bug): the client-supplied
sort token is interpolated into the executed query unchecked — the built
query carries the raw token bogus — and instead of falling back to the
default sort column, the failed store read makes get_images return the
empty fallback dict (after inserting an error record), which differs from
the default-sorted result the claim requires. -/
theorem c2_sort_token_unchecked :
    (buildImgQuery bogusSortFilters).sortBy = "bogus" ∧
    getImages fixtureDB 1 20 bogusSortFilters =
      (Except.ok (imgFallback 1 20),
       [Effect.readFetch, Effect.insertError imgErrMsg]) ∧
    (getImages fixtureDB 1 20 bogusSortFilters).1 ≠
      (getImages fixtureDB 1 20 { }).1 :=
  ⟨rfl, by decide, by decide⟩

/-- Claim C3 counterexample: on a store whose reads fail, get_images and
get_logs do not propagate the failure outward; they return a successful,
substituted (empty) result. -/
theorem c3_counterexample :
    (getImages failDB 2 20 { }).1 = Except.ok (imgFallback 2 20) ∧
    (getLogs failDB 2 50 { }).1 = Except.ok (logFallback 2 50) := by
  constructor
  · decide
  · decide

/-- Claim C3 amended: a store failure is swallowed inside the listing
operation, which returns the well-formed empty fallback dict after a single
fetch attempt (no retry, no partial data); get_images additionally records
the failure through add_error, get_logs does not. -/
theorem c3_amended_failure_swallowed (db : DB) (page pp : Int)
    (f : ImageFilters) (g : LogFilters) (hdb : db.failing = true) :
    getImages db page pp f =
      (Except.ok (imgFallback page pp),
       [Effect.readFetch, Effect.insertError imgErrMsg]) ∧
    getLogs db page pp g =
      (Except.ok (logFallback page pp), [Effect.readFetch]) := by
  constructor
  · unfold getImages
    rw [hdb]
    rcases resolveImageSortCol (buildImgQuery f).sortBy with _ | c <;>
      rcases resolveOrd (buildImgQuery f).sortOrder with _ | d <;> rfl
  · simp [getLogs, hdb]

/-- Concrete instance of amended claim C3 on the failing store. -/
theorem c3_amended_witness :
    getImages failDB 3 7 { } =
      (Except.ok (imgFallback 3 7),
       [Effect.readFetch, Effect.insertError imgErrMsg]) ∧
    getLogs failDB 3 7 { } =
      (Except.ok (logFallback 3 7), [Effect.readFetch]) :=
  c3_amended_failure_swallowed failDB 3 7 { } { } rfl

/-- Claim C4 counterexample: a request with page_size 0 is not clamped to
a positive default; the total_pages division raises ZeroDivisionError out
of get_images. -/
theorem c4_counterexample :
    (getImages fixtureDB 1 0 { }).1 = Except.error PyErr.zeroDiv := by
  decide

/-- Claim C4 amended: the code clamps nothing.  A page_size of 0 always
raises ZeroDivisionError; for page ≤ 0 the raw negative offset
(page - 1) * page_size is handed to the store, whose negative-offset
handling makes the call return the same records, total and total_pages as
page 1 while echoing the requested page. -/
theorem c4_amended_no_clamping (db : DB) (page pp : Int) (f : ImageFilters)
    (hok : imgReadOk db f = true) :
    (getImages db page 0 f).1 = Except.error PyErr.zeroDiv ∧
    (1 ≤ pp → page ≤ 0 →
      ∃ r r1 : ImagesResult, ∃ e e1 : List Effect,
        getImages db page pp f = (Except.ok r, e) ∧
        getImages db 1 pp f = (Except.ok r1, e1) ∧
        r.images = r1.images ∧ r.total = r1.total ∧
        r.total_pages = r1.total_pages ∧ r.page = page ∧ r.per_page = pp) := by
  obtain ⟨c, desc, hc, ho, hfail, heq⟩ := getImages_run_of_ok db f hok
  constructor
  · rw [heq page 0]
    simp [runImagesQuery]
  · intro hpp hpage
    have hppne : pp ≠ 0 := by omega
    refine ⟨imagesOkResult db page pp f c desc, imagesOkResult db 1 pp f c desc,
      twoReads, twoReads, ?_, ?_, ?_, rfl, rfl, rfl, rfl⟩
    · rw [heq page pp]
      exact runImagesQuery_eq_ok db page pp f c desc hppne
    · rw [heq 1 pp]
      exact runImagesQuery_eq_ok db 1 pp f c desc hppne
    · have hneg : (page - 1) * pp ≤ 0 := by nlinarith
      have hoff : ((page - 1) * pp).toNat = (((1 : Int) - 1) * pp).toNat := by
        rw [Int.toNat_of_nonpos hneg]
        simp
      simp only [imagesOkResult, applyLimitOffset, hoff]

/-- Concrete instance of amended claim C4: page 0 with page size 2 returns
the rows of page 1, and page size 0 raises. -/
theorem c4_amended_witness :
    (getImages fixtureDB 0 0 ({ } : ImageFilters)).1 = Except.error PyErr.zeroDiv ∧
    (∃ r r1 : ImagesResult, ∃ e e1 : List Effect,
      getImages fixtureDB 0 2 { } = (Except.ok r, e) ∧
      getImages fixtureDB 1 2 { } = (Except.ok r1, e1) ∧
      r.images = r1.images ∧ r.total = r1.total ∧
      r.total_pages = r1.total_pages ∧ r.page = 0 ∧ r.per_page = 2) :=
  ⟨(c4_amended_no_clamping fixtureDB 0 2 { } (by decide)).1,
   (c4_amended_no_clamping fixtureDB 0 2 { } (by decide)).2 (by decide) (by decide)⟩

/-- Claim C7: a substring filter over multiple columns matches a record
when any one of its target columns contains the value (OR within the
filter), and the distinct filters present in a request are conjoined: the
conjunction of the built WHERE fragments holds exactly when every applied
filter condition holds, with the images filename condition an OR over
original_filename / saved_filename and the logs search condition an OR
over message / details. -/
theorem c7_or_within_and_across (f : ImageFilters) (r : ImageRow)
    (g : LogFilters) (s : LogRow) :
    (evalImgWhere (buildImgClauses f) r = true ↔
      ((∀ v, strFilterVal f.file_extension = some v → r.file_extension = v) ∧
       (∀ v, strFilterVal f.filename = some v →
          (likeContains r.original_filename v = true ∨
           likeContains r.saved_filename v = true)) ∧
       (∀ v, strFilterVal f.date_from = some v → strLe v r.upload_timestamp = true) ∧
       (∀ v, strFilterVal f.date_to = some v → strLe r.upload_timestamp v = true) ∧
       (∀ v, f.min_size = some v → v ≤ r.file_size) ∧
       (∀ v, f.max_size = some v → r.file_size ≤ v))) ∧
    (evalLogWhere (buildLogClauses g) s = true ↔
      ((∀ v, strFilterVal g.level = some v → s.level = v) ∧
       (∀ v, strFilterVal g.search = some v →
          (likeContains s.message v = true ∨ likeContains s.details v = true)) ∧
       (∀ v, strFilterVal g.date_from = some v → strLe v s.timestamp = true) ∧
       (∀ v, strFilterVal g.date_to = some v → strLe s.timestamp v = true))) := by
  constructor
  · rw [evalImgWhere_build]
    unfold matchesImage
    rcases h1 : strFilterVal f.file_extension with _ | v1 <;>
    rcases h2 : strFilterVal f.filename with _ | v2 <;>
    rcases h3 : strFilterVal f.date_from with _ | v3 <;>
    rcases h4 : strFilterVal f.date_to with _ | v4 <;>
    rcases h5 : f.min_size with _ | v5 <;>
    rcases h6 : f.max_size with _ | v6 <;>
      simp [and_assoc]
  · rw [evalLogWhere_build]
    unfold matchesLog
    rcases h1 : strFilterVal g.level with _ | v1 <;>
    rcases h2 : strFilterVal g.search with _ | v2 <;>
    rcases h3 : strFilterVal g.date_from with _ | v3 <;>
    rcases h4 : strFilterVal g.date_to with _ | v4 <;>
      simp [and_assoc]

/-- Concrete instance of claim C7: the fixture row whose original name
contains the letters cat satisfies the filename filter through the first
of its two OR-combined columns. -/
theorem c7_witness :
    evalImgWhere (buildImgClauses fCat) imgA = true ∧
    (likeContains imgA.original_filename ("cat") = true ∨
     likeContains imgA.saved_filename ("cat") = true) :=
  have h := (c7_or_within_and_across fCat imgA gInfo logA).1
  have he : evalImgWhere (buildImgClauses fCat) imgA = true := by decide
  ⟨he, (h.mp he).2.1 ("cat") (by decide)⟩

/-- Claim C8 counterexample: the failure path of get_images is not free of
side effects beyond the two reads: it performs the add_error INSERT (here
reached with a healthy errors table, because only the interpolated sort
token made the fetch statement fail). -/
theorem c8_counterexample :
    (getImages fixtureDB 1 20 bogusSortFilters).2 =
      [Effect.readFetch, Effect.insertError imgErrMsg] ∧
    ((getImages fixtureDB 1 20 bogusSortFilters).2.all isReadEffect) = false := by
  constructor
  · decide
  · decide

/-- Claim C8 amended: on the success path each listing call performs
exactly its two reads (fetch then count) and no write; on the failure path
get_images performs one fetch attempt plus the add_error INSERT, while
get_logs and get_errors perform the fetch attempt only. -/
theorem c8_amended_effects (db : DB) (page pp : Int) (f : ImageFilters)
    (g : LogFilters) (inc : Bool) :
    (imgReadOk db f = true →
      (getImages db page pp f).2 = [Effect.readFetch, Effect.readCount]) ∧
    (imgReadOk db f = false →
      (getImages db page pp f).2 = [Effect.readFetch, Effect.insertError imgErrMsg]) ∧
    (db.failing = false →
      (getLogs db page pp g).2 = [Effect.readFetch, Effect.readCount]) ∧
    (db.failing = true → (getLogs db page pp g).2 = [Effect.readFetch]) ∧
    (db.failing = false →
      (getErrors db page pp inc).2 = [Effect.readFetch, Effect.readCount]) ∧
    (db.failing = true → (getErrors db page pp inc).2 = [Effect.readFetch]) := by
  refine ⟨?_, ?_, ?_, ?_, ?_, ?_⟩
  · intro hok
    obtain ⟨c, desc, hc, ho, hfail, heq⟩ := getImages_run_of_ok db f hok
    rw [heq page pp]
    by_cases hpp : pp = 0 <;> simp [runImagesQuery, hpp]
  · intro hbad
    unfold getImages
    rcases hc : resolveImageSortCol (buildImgQuery f).sortBy with _ | c <;>
      rcases ho : resolveOrd (buildImgQuery f).sortOrder with _ | d <;>
      rcases hfail : db.failing with _ | _ <;>
        first
          | rfl
          | (exfalso
             unfold imgReadOk at hbad
             rw [hc, ho, hfail] at hbad
             simp at hbad)
  · intro hdb
    by_cases hpp : pp = 0 <;> simp [getLogs, hdb, hpp]
  · intro hdb
    simp [getLogs, hdb]
  · intro hdb
    by_cases hpp : pp = 0 <;> simp [getErrors, hdb, hpp]
  · intro hdb
    simp [getErrors, hdb]

/-- Concrete instance of amended claim C8: two reads on success, a read
attempt plus an error insert on a failed images read, a read attempt only
on a failed logs read. -/
theorem c8_amended_witness :
    (getImages fixtureDB 1 20 fCat).2 = [Effect.readFetch, Effect.readCount] ∧
    (getImages failDB 1 20 fCat).2 =
      [Effect.readFetch, Effect.insertError imgErrMsg] ∧
    (getLogs failDB 1 50 gInfo).2 = [Effect.readFetch] :=
  ⟨(c8_amended_effects fixtureDB 1 20 fCat gInfo false).1 (by decide),
   (c8_amended_effects failDB 1 20 fCat gInfo false).2.1 (by decide),
   (c8_amended_effects failDB 1 50 fCat gInfo false).2.2.2.1 rfl⟩

/-- Claim C9: when the store read raises, each listing operation returns,
with no exception escaping, a well-formed result whose record list is
empty, whose total and total_pages are 0, and whose page and per_page echo
the requested values. -/
theorem c9_failure_returns_fallback (db : DB) (page pp : Int)
    (f : ImageFilters) (g : LogFilters) (inc : Bool) (hdb : db.failing = true) :
    (getImages db page pp f).1 = Except.ok
      { images := [], total := 0, page := page, per_page := pp, total_pages := 0 } ∧
    (getLogs db page pp g).1 = Except.ok
      { logs := [], total := 0, page := page, per_page := pp, total_pages := 0 } ∧
    (getErrors db page pp inc).1 = Except.ok
      { errors := [], total := 0, page := page, per_page := pp, total_pages := 0 } := by
  refine ⟨?_, ?_, ?_⟩
  · unfold getImages
    rw [hdb]
    rcases resolveImageSortCol (buildImgQuery f).sortBy with _ | c <;>
      rcases resolveOrd (buildImgQuery f).sortOrder with _ | d <;> rfl
  · simp [getLogs, hdb, logFallback]
  · simp [getErrors, hdb, errFallback]

/-- Concrete instance of claim C9 on the failing store. -/
theorem c9_witness :
    (getImages failDB 4 9 { }).1 = Except.ok
      { images := [], total := 0, page := 4, per_page := 9, total_pages := 0 } ∧
    (getLogs failDB 4 9 { }).1 = Except.ok
      { logs := [], total := 0, page := 4, per_page := 9, total_pages := 0 } ∧
    (getErrors failDB 4 9 false).1 = Except.ok
      { errors := [], total := 0, page := 4, per_page := 9, total_pages := 0 } :=
  c9_failure_returns_fallback failDB 4 9 { } { } false rfl

/-- The empty logs filters mapping. -/
def gNone : LogFilters := { }

/-- Result of getLogs fixtureDB 1 50 gNone. -/
def rlAll : LogsResult :=
  { logs := [logB, logA], total := 2, page := 1, per_page := 50, total_pages := 1 }

/-- Result of getErrors fixtureDB 1 50 false. -/
def reOpen : ErrorsResult :=
  { errors := [errA], total := 1, page := 1, per_page := 50, total_pages := 1 }

/-- An images filters mapping carrying both client sort tokens. -/
def fSortSize : ImageFilters :=
  { sort_by := some ("file_size"), sort_order := some ("asc") }

/-- Claim C10: get_logs and get_errors always return records ordered by
timestamp descending, and sort keys present in the logs filters mapping are
ignored entirely; only get_images forwards the client-supplied sort tokens
into its query. -/
theorem c10_fixed_sort_logs_errors (db : DB) (page pp : Int) (g : LogFilters)
    (x y : Option String) (inc : Bool) (r : LogsResult) (er : ErrorsResult)
    (e1 e2 : List Effect)
    (hl : getLogs db page pp g = (Except.ok r, e1))
    (he : getErrors db page pp inc = (Except.ok er, e2)) :
    getLogs db page pp { g with sort_by := x, sort_order := y } =
      getLogs db page pp g ∧
    List.Pairwise (fun a b => strLe b.timestamp a.timestamp = true) r.logs ∧
    List.Pairwise (fun a b => strLe b.timestamp a.timestamp = true) er.errors ∧
    (∀ fi : ImageFilters, ∀ s o : String,
      fi.sort_by = some s → fi.sort_order = some o →
      (buildImgQuery fi).sortBy = s ∧ (buildImgQuery fi).sortOrder = o) := by
  refine ⟨rfl, ?_, ?_, ?_⟩
  · by_cases hdb : db.failing = true
    · simp only [getLogs, hdb, if_true, Prod.mk.injEq, Except.ok.injEq] at hl
      rw [← hl.1]
      simp [logFallback]
    · obtain ⟨-, hr, -⟩ := getLogs_ok_elim (by simpa using hdb) hl
      subst hr
      exact pairwise_applyLimitOffset (List.sorted_insertionSort logDescRel _)
  · by_cases hdb : db.failing = true
    · simp only [getErrors, hdb, if_true, Prod.mk.injEq, Except.ok.injEq] at he
      rw [← he.1]
      simp [errFallback]
    · obtain ⟨-, hr, -⟩ := getErrors_ok_elim (by simpa using hdb) he
      subst hr
      exact pairwise_applyLimitOffset (List.sorted_insertionSort errDescRel _)
  · intro fi s o hs ho
    constructor
    · simp [buildImgQuery, hs]
    · simp [buildImgQuery, ho]

/-- Concrete instance of claim C10 on the fixture store. -/
theorem c10_witness :
    getLogs fixtureDB 1 50
        { gNone with sort_by := some ("level"), sort_order := some ("asc") } =
      getLogs fixtureDB 1 50 gNone ∧
    List.Pairwise (fun a b => strLe b.timestamp a.timestamp = true) rlAll.logs ∧
    List.Pairwise (fun a b => strLe b.timestamp a.timestamp = true) reOpen.errors ∧
    ((buildImgQuery fSortSize).sortBy = "file_size" ∧
      (buildImgQuery fSortSize).sortOrder = "asc") :=
  have h := c10_fixed_sort_logs_errors fixtureDB 1 50 gNone (some ("level"))
    (some ("asc")) false rlAll reOpen twoReads twoReads (by decide) (by decide)
  ⟨h.1, h.2.1, h.2.2.1, h.2.2.2 fSortSize ("file_size") ("asc") rfl rfl⟩

end Keepsake
